import Mathlib

/-!
Verification of the Risk Scoring & Nowcast Analytics Engine.

The definitions below are a shallow embedding of the JavaScript sources:
`src/api/routes.js` (trend tracker and 1-hour nowcast escalation gate),
`src/analyticsEngine.js` (risk formula, risk levels, high-risk zones),
`src/utils/reservoirMatcher.js` (fuzzy reservoir matching), and
`src/riskEngine.js` (assessment assembly).  JavaScript numbers are modelled
as rationals where only field-by-field arithmetic and comparisons occur, and
as reals where the transcendental `Math.exp` is involved.
-/

namespace DisasterRisk

/-! ### Trend tracker (routes.js: updateHistory / consecutiveRising) -/

/-- One point of a location's rolling score history (`{ score, ts: Date.now() }`). -/
structure TrendPoint where
  score : Int
  ts : Nat
deriving DecidableEq, Repr

/-- `updateHistory`: append a point and keep only the last `maxPoints` entries
(JS `[...existing, { score, ts }].slice(-maxPoints)`). -/
def updateHistory (existing : List TrendPoint) (score : Int) (ts : Nat)
    (maxPoints : Nat := 8) : List TrendPoint :=
  let next := existing ++ [⟨score, ts⟩]
  next.drop (next.length - maxPoints)

/-- Helper for `consecutiveRising`: walking a reversed score list, count how many
consecutive immediately-preceding comparisons are strictly increasing. -/
def risingFrom : Int → List Int → Nat
  | _, [] => 0
  | cur, prev :: rest => if prev < cur then 1 + risingFrom prev rest else 0

/-- `consecutiveRising`: number of strictly increasing consecutive comparisons
counted from the most recent point backward; 0 for fewer than 2 points. -/
def consecutiveRising (history : List TrendPoint) : Nat :=
  if history.length < 2 then 0
  else
    match (history.map (fun p => p.score)).reverse with
    | [] => 0
    | cur :: rest => risingFrom cur rest

/-! ### Nowcast escalation gate (routes.js: runOneHourNowcast) -/

/-- Nowcast thresholds (`config.risk.nowcast` with the documented defaults). -/
structure NowcastConfig where
  warning_threshold : Int := 60
  emergency_threshold : Int := 75
  rising_checks : Nat := 3
deriving DecidableEq, Repr

def defaultNowcastConfig : NowcastConfig := {}

/-- Per-location outcome of one nowcast run's escalation step. -/
structure NowcastFlags where
  history : List TrendPoint
  rising : Nat
  warning_triggered : Bool
  emergency_triggered : Bool
deriving DecidableEq, Repr

/-- The escalation step of `runOneHourNowcast` for one location: update the
trend history with `overall1h`, recompute the rising streak, and evaluate
`warningTriggered = overall1h >= warningThreshold && rising >= risingChecks`,
`emergencyTriggered = overall1h >= emergencyThreshold && rising >= Math.max(1, risingChecks - 1)`. -/
def nowcastStep (cfg : NowcastConfig) (prior : List TrendPoint) (overall1h : Int)
    (ts : Nat) : NowcastFlags :=
  let history := updateHistory prior overall1h ts
  let rising := consecutiveRising history
  { history := history
    rising := rising
    warning_triggered :=
      decide (cfg.warning_threshold ≤ overall1h) && decide (cfg.rising_checks ≤ rising)
    emergency_triggered :=
      decide (cfg.emergency_threshold ≤ overall1h) &&
        decide (max 1 (cfg.rising_checks - 1) ≤ rising) }

/-! ### Risk levels and high-risk zones (analyticsEngine.js) -/

/-- The LOW/MEDIUM/HIGH risk bands. -/
inductive RiskBand
  | LOW
  | MEDIUM
  | HIGH
deriving DecidableEq, Repr

/-- `riskLevel`: score <= 33 is LOW, <= 66 MEDIUM, else HIGH. -/
def riskLevel (score : Int) : RiskBand :=
  if score ≤ 33 then .LOW else if score ≤ 66 then .MEDIUM else .HIGH

/-- Per-dam analytics output fields used by the high-risk-zone builder
(scores after optional calibration; the stored levels are `riskLevel` of them). -/
structure DamResult where
  name : String
  state : String
  flood_risk_score : Int
  landslide_risk_score : Int
deriving DecidableEq, Repr

/-- An entry of the `high_risk_zones` list. -/
structure RiskZone where
  dam : String
  state : String
  flood_risk : Int
  landslide_risk : Int
  flood_level : RiskBand
  landslide_level : RiskBand
  zone_severity : RiskBand
deriving DecidableEq, Repr

/-- Map one filtered dam result to its zone entry. -/
def mkRiskZone (d : DamResult) : RiskZone :=
  let fl := riskLevel d.flood_risk_score
  let ll := riskLevel d.landslide_risk_score
  { dam := d.name
    state := d.state
    flood_risk := d.flood_risk_score
    landslide_risk := d.landslide_risk_score
    flood_level := fl
    landslide_level := ll
    zone_severity := if fl = .HIGH ∨ ll = .HIGH then .HIGH else .MEDIUM }

/-- The sort comparator of `high_risk_zones` as a boolean `≤` relation:
`zoneLe a b` iff the JS comparator orders `a` not after `b`
(HIGH severity first, then descending max(flood, landslide)). -/
def zoneLe (a b : RiskZone) : Bool :=
  if a.zone_severity = .HIGH ∧ b.zone_severity ≠ .HIGH then true
  else if b.zone_severity = .HIGH ∧ a.zone_severity ≠ .HIGH then false
  else decide (max b.flood_risk b.landslide_risk ≤ max a.flood_risk a.landslide_risk)

/-- `high_risk_zones`: keep every dam whose flood or landslide level is not LOW,
map to zone entries, and sort by the severity/score comparator. -/
def highRiskZones (damResults : List DamResult) : List RiskZone :=
  ((damResults.filter (fun d =>
      decide (riskLevel d.flood_risk_score ≠ .LOW) ||
      decide (riskLevel d.landslide_risk_score ≠ .LOW))).map mkRiskZone).mergeSort zoneLe

/-! ### Reservoir matcher (utils/reservoirMatcher.js) -/

/-- A monitored location (dam) record: the matcher uses name and state,
the risk engine additionally uses the coordinates. -/
structure Dam where
  name : String
  state : String
  lat : ℚ := 0
  lon : ℚ := 0
deriving DecidableEq, Repr

/-- A normalized reservoir telemetry record. -/
structure Reservoir where
  name : String
  state : String
  level_pct : Option ℚ := none
  inflow : Option ℚ := none
  outflow : Option ℚ := none
deriving DecidableEq, Repr

/-- A token removed by the normalization regex
`\b(dam|reservoir|barrage|project|lake|rl\d+|ph|bbmb)\b`: one of the generic
suffix words, or `rl` followed by one or more digits. -/
def isStopToken (t : String) : Bool :=
  (["dam", "reservoir", "barrage", "project", "lake", "ph", "bbmb"] : List String).contains t ||
    (t.startsWith ("rl") && !(t.drop 2).isEmpty && (t.drop 2).all Char.isDigit)

/-- Maximal alphanumeric runs of the lower-cased string: the tokens left after
`toLowerCase()` and the replacement of every `[^a-z0-9\s]` character by a space. -/
def rawTokens (s : String) : List String :=
  (s.toLower.split (fun c => !(c.isLower || c.isDigit))).filter (fun t => !t.isEmpty)

/-- The tokens of `normalizeText`: raw tokens with the stop tokens removed. -/
def normTokens (s : String) : List String :=
  (rawTokens s).filter (fun t => !isStopToken t)

/-- `normalizeText`: lower-case, strip punctuation and generic suffix words,
collapse whitespace (equivalently: the remaining tokens joined by single spaces). -/
def normalizeText (s : String) : String :=
  String.intercalate (" ") (normTokens s)

/-- `tokens`: the normalized tokens of length greater than 2. -/
def tokens (value : String) : List String :=
  (normTokens value).filter (fun t => 2 < t.length)

/-- `jaccardScore`: token-set Jaccard similarity between two names. -/
def jaccardScore (a b : String) : ℚ :=
  let A := (tokens a).dedup
  let B := (tokens b).dedup
  if A.isEmpty || B.isEmpty then 0
  else
    let inter := (A.filter (fun t => B.contains t)).length
    let uni := (A ++ B).dedup.length
    if uni = 0 then 0 else (inter : ℚ) / (uni : ℚ)

/-- The `DAM_ALIASES` table of short-form aliases. -/
def DAM_ALIASES : List (String × List String) :=
  [("tehri dam", ["tehri"]),
   ("bhakra nangal dam", ["bhakra", "bhakra dam"]),
   ("hirakud dam", ["hirakud"]),
   ("sardar sarovar dam", ["sardar sarovar"]),
   ("nagarjuna sagar dam", ["nagarjuna sagar"]),
   ("srisailam dam", ["srisailam"]),
   ("idukki dam", ["idukki"]),
   ("koyna dam", ["koyna"]),
   ("indira sagar dam", ["indira sagar", "narmada sagar"]),
   ("krishna raja sagara", ["krishna raja sagar", "krs"]),
   ("mettur dam", ["mettur"]),
   ("maithon dam", ["maithon"]),
   ("panchet dam", ["panchet"]),
   ("ukai dam", ["ukai"]),
   ("pong dam", ["pong"]),
   ("pandoh dam", ["pandoh"]),
   ("chamera dam", ["chamera"]),
   ("gumti dam", ["gumti"]),
   ("ramganga dam", ["ramganga"]),
   ("nizam sagar", ["nizam sagar", "nizamsagar"]),
   ("singur dam", ["singur"]),
   ("kadana dam", ["kadana"]),
   ("dantiwada dam", ["dantiwada"]),
   ("umiam lake dam", ["umiam", "umiam lake"])]

/-- `getCandidateNames`: the display name plus its known aliases
(JS `[damName, ...aliases].filter(Boolean)` drops empty strings). -/
def getCandidateNames (damName : String) : List String :=
  let key := damName.toLower
  let aliases := (((DAM_ALIASES.find? (fun p => p.1 == key)).map Prod.snd).getD [])
  (damName :: aliases).filter (fun s => !s.isEmpty)

/-- JS `big.includes(small)`: `small` occurs as a contiguous substring of `big`. -/
def jsIncludes (big small : String) : Bool :=
  (big.toList.tails).any (fun t => small.toList.isPrefixOf t)

/-- `scoreReservoirMatch`: best name similarity over all name variants
(Jaccard, raised to at least 0.9 on substring containment of the normalized
names) plus a 0.2 bonus for an exact normalized state match. -/
def scoreReservoirMatch (dam : Dam) (reservoir : Reservoir) : ℚ :=
  let damNames := getCandidateNames dam.name
  let reservoirName := reservoir.name
  let damState := normalizeText dam.state
  let reservoirState := normalizeText reservoir.state
  let bestNameScore := damNames.foldl
    (fun best nm =>
      let best := max best (jaccardScore nm reservoirName)
      let normDam := normalizeText nm
      let normRes := normalizeText reservoirName
      if !normDam.isEmpty && !normRes.isEmpty &&
          (jsIncludes normRes normDam || jsIncludes normDam normRes) then
        max best (9/10 : ℚ)
      else best)
    0
  let stateBonus : ℚ :=
    if !damState.isEmpty && !reservoirState.isEmpty && damState == reservoirState
    then 2/10 else 0
  bestNameScore + stateBonus

/-- JS `Math.round(x)` on a rational: floor of `x + 1/2`. -/
def jsRoundQ (x : ℚ) : ℤ := ⌊x + 1/2⌋

/-- `Math.round(score * 100) / 100`: the match score rounded to two decimals. -/
def roundScore2 (x : ℚ) : ℚ := (jsRoundQ (x * 100) : ℚ) / 100

/-- One step of the best-candidate scan: keep the incumbent unless the new
candidate scores strictly higher (first maximum wins). -/
def matchStep (dam : Dam) (acc : Option Reservoir × ℚ) (reservoir : Reservoir) :
    Option Reservoir × ℚ :=
  let score := scoreReservoirMatch dam reservoir
  if acc.2 < score then (some reservoir, score) else acc

/-- `matchReservoirToDam`: scan all candidates for the highest combined score and
return the best one annotated with its rounded score, or `none` when the best
score is below `minScore` (default 0.45) or the candidate list is empty. -/
def matchReservoirToDam (dam : Dam) (reservoirLevels : List Reservoir)
    (minScore : ℚ := 45/100) : Option (Reservoir × ℚ) :=
  if reservoirLevels.isEmpty then none
  else
    let best := reservoirLevels.foldl (matchStep dam) (none, 0)
    if best.2 < minScore then none
    else
      match best.1 with
      | none => none
      | some b => some (b, roundScore2 best.2)

/-! ### Seismic events (riskEngine.js / analyticsEngine.js) -/

/-- A seismic event record. -/
structure SeismicEvent where
  magnitude : ℚ
  latitude : ℚ
  longitude : ℚ
deriving DecidableEq, Repr

/-- Count of significant earthquakes (magnitude >= 4.5) within a 2-degree
lat/lon box around the location. -/
def eqNearCount (earthquakes : List SeismicEvent) (lat lon : ℚ) : ℕ :=
  ((earthquakes.filter (fun e => decide ((9/2 : ℚ) ≤ e.magnitude))).filter
    (fun e => decide (|e.latitude - lat| ≤ 2 ∧ |e.longitude - lon| ≤ 2))).length

/-! ### Risk formula (analyticsEngine.js: calculateAdvancedRisk)

JavaScript numbers in the scoring formulas are modelled as reals, since the
logistic squashing uses `Math.exp`. -/

/-- Rainfall aggregates for one location; absent fields are `none`. -/
structure RainSummary where
  precipitation_sum_24h_mm : Option ℝ := none
  precipitation_sum_72h_mm : Option ℝ := none
  precipitation_sum_7d_mm : Option ℝ := none
  max_hourly_precipitation_mm : Option ℝ := none

/-- The reservoir fields read by the risk formula from a matched record. -/
structure ReservoirContext where
  level_pct : Option ℝ := none
  inflow : Option ℝ := none
  outflow : Option ℝ := none

/-- View a matched reservoir record as the context consumed by the formula. -/
def Reservoir.toContext (r : Reservoir) : ReservoirContext :=
  { level_pct := r.level_pct.map (fun q => (q : ℝ))
    inflow := r.inflow.map (fun q => (q : ℝ))
    outflow := r.outflow.map (fun q => (q : ℝ)) }

/-- The feature bundle consumed by `calculateAdvancedRisk`. -/
structure RiskInput where
  rainSummary : RainSummary := {}
  rain72h : Option ℝ := none
  rain7d : Option ℝ := none
  earthquakesNearby : ℝ := 0
  elevation : Option ℝ := none
  baselineAvgDaily : Option ℝ := none
  state : String := ""
  reservoirContext : Option ReservoirContext := none

noncomputable section

open Classical

/-- JS `clamp(value, min, max)` = `Math.max(min, Math.min(max, value))`. -/
def clamp (value lo hi : ℝ) : ℝ := max lo (min hi value)

/-- JS `Math.round` on a real: floor of `x + 1/2`. -/
def jsRound (x : ℝ) : ℤ := ⌊x + 1/2⌋

/-- `sigmoidTo100`: `100 / (1 + exp(-steepness * (value - center)))`. -/
def sigmoidTo100 (value center steepness : ℝ) : ℝ :=
  100 / (1 + Real.exp (-(steepness * (value - center))))

/-- JS `safeNum`: absent values fall back to 0. -/
def safeNumO (o : Option ℝ) : ℝ := o.getD 0

/-- `normalizeReservoirLevel`: a fraction in [0,1] is scaled to a percentage,
a value in [0,100] is kept, anything else (including absent) is `null`. -/
def normalizeReservoirLevel (levelPct : Option ℝ) : Option ℝ :=
  match levelPct with
  | none => none
  | some level =>
    if 0 ≤ level ∧ level ≤ 1 then some (level * 100)
    else if 0 ≤ level ∧ level ≤ 100 then some level
    else none

/-- `reservoirStressIndex`: level stress `clamp((level-60)*2.5, 0, 100)` blended
0.7/0.3 with flow stress `clamp((inflow/(outflow+1e-6) - 1)*45 + 50, 0, 100)`
when both exist; a lone component stands alone; no data gives 0. -/
def reservoirStressIndex (ctx : Option ReservoirContext) : ℤ :=
  let levelPct := normalizeReservoirLevel (ctx.bind (fun c => c.level_pct))
  let levelStress : Option ℝ := levelPct.map (fun l => clamp ((l - 60) * (5/2)) 0 100)
  let flowStress : Option ℝ :=
    match ctx.bind (fun c => c.inflow), ctx.bind (fun c => c.outflow) with
    | some inflow, some outflow =>
      if 0 ≤ outflow then
        some (clamp ((inflow / (outflow + 1/1000000) - 1) * 45 + 50) 0 100)
      else none
    | _, _ => none
  match levelStress, flowStress with
  | none, none => 0
  | some ls, some fs => jsRound ((7/10) * ls + (3/10) * fs)
  | some ls, none => jsRound ls
  | none, some fs => jsRound fs

/-- `r24 = safeNum(rainSummary.precipitation_sum_24h_mm)`. -/
def r24v (input : RiskInput) : ℝ := safeNumO input.rainSummary.precipitation_sum_24h_mm

/-- `r72 = safeNum(input.rain72h ?? rainSummary.precipitation_sum_72h_mm ?? r24)`. -/
def r72v (input : RiskInput) : ℝ :=
  (input.rain72h <|> input.rainSummary.precipitation_sum_72h_mm).getD (r24v input)

/-- `r7 = safeNum(input.rain7d ?? rainSummary.precipitation_sum_7d_mm ?? r72)`. -/
def r7v (input : RiskInput) : ℝ :=
  (input.rain7d <|> input.rainSummary.precipitation_sum_7d_mm).getD (r72v input)

/-- `peak = safeNum(rainSummary.max_hourly_precipitation_mm)`. -/
def peakv (input : RiskInput) : ℝ := safeNumO input.rainSummary.max_hourly_precipitation_mm

/-- Flood rain intensity: `clamp(r24/1.25 + peak*2.8, 0, 100)`. -/
def intensityFloodv (input : RiskInput) : ℝ :=
  clamp (r24v input / (5/4) + peakv input * (28/10)) 0 100

/-- Persistence: `clamp(r72/2.0, 0, 100)`. -/
def persistencev (input : RiskInput) : ℝ := clamp (r72v input / 2) 0 100

/-- Saturation: `clamp(r7/3.6, 0, 100)`. -/
def saturationv (input : RiskInput) : ℝ := clamp (r7v input / (36/10)) 0 100

/-- Flood seismic signal: `clamp(earthquakesNearby * 18, 0, 100)`. -/
def seismicv (input : RiskInput) : ℝ := clamp (input.earthquakesNearby * 18) 0 100

/-- Anomaly ratio: `(r24/24)/baseline` when a positive baseline exists, else 1. -/
def anomalyRatiov (input : RiskInput) : ℝ :=
  match input.baselineAvgDaily with
  | some b => if 0 < b then (r24v input / 24) / b else 1
  | none => 1

/-- Anomaly sub-index: `clamp((ratio - 1)*50 + 50, 0, 100)`. -/
def anomalyv (input : RiskInput) : ℝ :=
  clamp ((anomalyRatiov input - 1) * 50 + 50) 0 100

/-- Reservoir stress of the input's (optional) matched record. -/
def reservoirStressv (input : RiskInput) : ℤ := reservoirStressIndex input.reservoirContext

/-- Lowland factor: elevation below 300 m gives 12, below 600 m gives 6,
otherwise (or when unknown) 0. -/
def lowlandFactorv (input : RiskInput) : ℝ :=
  match input.elevation with
  | none => 0
  | some e => if e < 300 then 12 else if e < 600 then 6 else 0

/-- The flood linear combination with its fixed weights. -/
def floodLinearv (input : RiskInput) : ℝ :=
  (30/100) * intensityFloodv input + (18/100) * persistencev input +
  (14/100) * saturationv input + (14/100) * (reservoirStressv input : ℝ) +
  (10/100) * anomalyv input + (8/100) * seismicv input +
  (6/100) * lowlandFactorv input

/-- `floodScore = Math.round(clamp(sigmoidTo100(floodLinear, 50, 0.09), 0, 100))`. -/
def floodScorev (input : RiskInput) : ℤ :=
  jsRound (clamp (sigmoidTo100 (floodLinearv input) 50 (9/100)) 0 100)

/-- Landslide rain intensity: `clamp(r24/1.15 + peak*3.1, 0, 100)`. -/
def intensityLandv (input : RiskInput) : ℝ :=
  clamp (r24v input / (115/100) + peakv input * (31/10)) 0 100

/-- Landslide duration: `clamp(r72/1.8, 0, 100)`. -/
def durationLandv (input : RiskInput) : ℝ := clamp (r72v input / (18/10)) 0 100

/-- Landslide seismic signal: `clamp(earthquakesNearby * 20, 0, 100)`. -/
def seismicLandv (input : RiskInput) : ℝ := clamp (input.earthquakesNearby * 20) 0 100

/-- Terrain: 50 when elevation is unknown, else `clamp(elevation/30, 0, 100)`. -/
def terrainv (input : RiskInput) : ℝ :=
  match input.elevation with
  | none => 50
  | some e => clamp (e / 30) 0 100

/-- The static list of landslide-prone states. -/
def LANDSLIDE_PRONE_STATES : List String :=
  ["kerala", "uttarakhand", "himachal pradesh", "assam", "tamil nadu",
   "maharashtra", "karnataka", "goa", "meghalaya", "arunachal pradesh",
   "mizoram", "nagaland", "manipur", "jammu and kashmir", "sikkim",
   "west bengal"]

/-- Additive boost: 12 for landslide-prone states, 0 otherwise. -/
def proneStateBoostv (input : RiskInput) : ℝ :=
  if LANDSLIDE_PRONE_STATES.contains input.state.toLower then 12 else 0

/-- Spill slope stress: `clamp(reservoirStress * 0.55, 0, 100)`. -/
def spillSlopeStressv (input : RiskInput) : ℝ :=
  clamp ((reservoirStressv input : ℝ) * (55/100)) 0 100

/-- The landslide linear combination with its fixed weights. -/
def landslideLinearv (input : RiskInput) : ℝ :=
  (27/100) * intensityLandv input + (24/100) * durationLandv input +
  (16/100) * terrainv input + (10/100) * seismicLandv input +
  (10/100) * anomalyv input + (7/100) * spillSlopeStressv input +
  (6/100) * proneStateBoostv input

/-- `landslideScore = Math.round(clamp(sigmoidTo100(landslideLinear, 48, 0.085), 0, 100))`. -/
def landslideScorev (input : RiskInput) : ℤ :=
  jsRound (clamp (sigmoidTo100 (landslideLinearv input) 48 (85/1000)) 0 100)

/-- Number of `featuresAvailable` entries that are true. -/
def featuresAvailableCount (input : RiskInput) : ℕ :=
  (if 0 < r24v input then 1 else 0) + (if 0 < r72v input then 1 else 0) +
  (if 0 < r7v input then 1 else 0) + (if 0 ≤ peakv input then 1 else 0) +
  (if 0 ≤ input.earthquakesNearby then 1 else 0) +
  (if input.elevation.isSome then 1 else 0) +
  (if input.baselineAvgDaily.isSome then 1 else 0) +
  (if (normalizeReservoirLevel (input.reservoirContext.bind (fun c => c.level_pct))).isSome
    then 1 else 0)

/-- Completeness: fraction of the 8 expected features present. -/
def completenessv (input : RiskInput) : ℝ := (featuresAvailableCount input : ℝ) / 8

/-- Source diversity: 3 base sources plus baseline and reservoir when present. -/
def sourceDiversityv (input : RiskInput) : ℕ :=
  3 + (if input.baselineAvgDaily.isSome then 1 else 0) +
    (if (normalizeReservoirLevel (input.reservoirContext.bind (fun c => c.level_pct))).isSome
      then 1 else 0)

/-- `confidence = Math.round(clamp(45 + completeness*40 + sourceDiversity*3, 0, 100))`. -/
def confidencev (input : RiskInput) : ℤ :=
  jsRound (clamp (45 + completenessv input * 40 + (sourceDiversityv input : ℝ) * 3) 0 100)

/-- The rounded flood component sub-indices. -/
structure FloodComponents where
  intensity : ℤ
  persistence : ℤ
  saturation : ℤ
  reservoir_stress : ℤ
  anomaly : ℤ
  seismic : ℤ
  lowland_factor : ℤ

/-- The rounded landslide component sub-indices. -/
structure LandslideComponents where
  intensity : ℤ
  duration : ℤ
  terrain : ℤ
  seismic : ℤ
  anomaly : ℤ
  reservoir_spill_stress : ℤ
  prone_state_boost : ℤ

/-- Both component blocks. -/
structure RiskComponents where
  flood : FloodComponents
  landslide : LandslideComponents

/-- The result of `calculateAdvancedRisk`. -/
structure RiskResult where
  flood_score : ℤ
  landslide_score : ℤ
  confidence : ℤ
  components : RiskComponents

/-- `calculateAdvancedRisk`: scores, confidence, and rounded components.
`reservoir_stress` is already an integer, so its extra `Math.round` is the
identity. -/
def calculateAdvancedRisk (input : RiskInput) : RiskResult :=
  { flood_score := floodScorev input
    landslide_score := landslideScorev input
    confidence := confidencev input
    components :=
      { flood :=
          { intensity := jsRound (intensityFloodv input)
            persistence := jsRound (persistencev input)
            saturation := jsRound (saturationv input)
            reservoir_stress := reservoirStressv input
            anomaly := jsRound (anomalyv input)
            seismic := jsRound (seismicv input)
            lowland_factor := jsRound (lowlandFactorv input) }
        landslide :=
          { intensity := jsRound (intensityLandv input)
            duration := jsRound (durationLandv input)
            terrain := jsRound (terrainv input)
            seismic := jsRound (seismicLandv input)
            anomaly := jsRound (anomalyv input)
            reservoir_spill_stress := jsRound (spillSlopeStressv input)
            prone_state_boost := jsRound (proneStateBoostv input) } } }

/-! ### Risk check assembler (riskEngine.js: runRiskCheck) -/

/-- One fetched rainfall record (summary may be absent for a location). -/
structure RainRecord where
  summary : Option RainSummary := none
  elevation_m : Option ℝ := none

/-- The joined upstream fetch results for a whole batch. -/
structure FetchedData where
  rainfallData : List RainRecord
  earthquakes : List SeismicEvent
  reservoirLevels : List Reservoir

/-- The top-level assessment object; fields absent on the degraded path are
optional. -/
structure Assessment where
  success : Bool
  error : Option String
  flood_risk_score : ℤ
  landslide_risk_score : ℤ
  flood_risk_level : Option RiskBand
  landslide_risk_level : Option RiskBand
  overall_alert_level : RiskBand
  alert_message : String
  recommendations : List String
  model_confidence : Option ℤ

/-- `generateAlertMessage`. -/
def generateAlertMessage (alertLevel : RiskBand) (floodScore landslideScore : ℤ) :
    String :=
  match alertLevel with
  | .LOW => "No significant disaster risk. Continue normal monitoring."
  | .MEDIUM =>
    "Moderate risk: Flood " ++ toString floodScore ++ ", Landslide " ++
      toString landslideScore ++ ". Stay alert and monitor updates."
  | .HIGH =>
    "High disaster risk: Flood " ++ toString floodScore ++ ", Landslide " ++
      toString landslideScore ++ ". Take preventive actions and follow authorities."

/-- `generateRecommendations`. -/
def generateRecommendations (alertLevel : RiskBand) : List String :=
  match alertLevel with
  | .HIGH =>
    ["Evacuate low-lying and landslide-prone areas if advised",
     "Avoid crossing flooded roads and streams",
     "Follow instructions from disaster management authorities",
     "Keep emergency kit ready"]
  | .MEDIUM =>
    ["Stay away from riverbanks and landslide-prone slopes",
     "Monitor weather and official advisories",
     "Be prepared to move to safer locations if conditions worsen"]
  | .LOW =>
    ["No special action required", "Continue normal activities",
     "Stay informed through official channels"]

/-- The per-location scoring call inside `runRiskCheck`: earthquakes near the
dam, the matched reservoir, and `calculateAdvancedRisk` invoked with
`baselineAvgDaily: null`. -/
def riskCheckLocationAssessment (dam : Option Dam) (earthquakes : List SeismicEvent)
    (reservoirLevels : List Reservoir) (summary : RainSummary)
    (elevation : Option ℝ) : RiskResult :=
  let eq := match dam with
    | some d => eqNearCount earthquakes d.lat d.lon
    | none => 0
  let reservoir := dam.bind (fun d => (matchReservoirToDam d reservoirLevels).map (fun p => p.1))
  calculateAdvancedRisk
    { rainSummary := summary
      rain72h := summary.precipitation_sum_72h_mm
      rain7d := summary.precipitation_sum_7d_mm
      earthquakesNearby := (eq : ℝ)
      elevation := elevation
      baselineAvgDaily := none
      reservoirContext := (reservoir.map Reservoir.toContext)
      state := (dam.map (fun d => d.state)).getD "" }

/-- `runRiskCheck` after the fetch boundary: on fetch failure return the
degraded assessment; on success score each location with a rain summary,
average, and assemble the assessment. -/
def runRiskCheck (locations : List Dam) (fetched : Except String FetchedData) :
    Assessment :=
  match fetched with
  | .error e =>
    { success := false
      error := some e
      flood_risk_score := 0
      landslide_risk_score := 0
      flood_risk_level := none
      landslide_risk_level := none
      overall_alert_level := .LOW
      alert_message := "Data fetch failed. Retry later."
      recommendations := ["Retry run check or check API connectivity."]
      model_confidence := none }
  | .ok data =>
    let results := data.rainfallData.enum.filterMap (fun pair =>
      (pair.2.summary).map (fun s =>
        riskCheckLocationAssessment (locations.get? pair.1) data.earthquakes
          data.reservoirLevels s pair.2.elevation_m))
    let count := results.length
    let floodScore : ℤ :=
      if count = 0 then 0
      else jsRound (((results.map (fun r => r.flood_score)).sum : ℝ) / (count : ℝ))
    let landslideScore : ℤ :=
      if count = 0 then 0
      else jsRound (((results.map (fun r => r.landslide_score)).sum : ℝ) / (count : ℝ))
    let modelConfidence : ℤ :=
      if count = 0 then 0
      else jsRound (((results.map (fun r => r.confidence)).sum : ℝ) / (count : ℝ))
    let overallScore := max floodScore landslideScore
    let alertLevel := riskLevel overallScore
    { success := true
      error := none
      flood_risk_score := floodScore
      landslide_risk_score := landslideScore
      flood_risk_level := some (riskLevel floodScore)
      landslide_risk_level := some (riskLevel landslideScore)
      overall_alert_level := alertLevel
      alert_message := generateAlertMessage alertLevel floodScore landslideScore
      recommendations := generateRecommendations alertLevel
      model_confidence := some modelConfidence }

end

noncomputable section

open Classical

/-- A score or sub-index value in the documented output range [0, 100]. -/
def inScoreRange (z : ℤ) : Prop := 0 ≤ z ∧ z ≤ 100

/-- Replace only the 24-hour rainfall sum of a feature bundle. -/
def setRain24 (input : RiskInput) (v : ℝ) : RiskInput :=
  { input with rainSummary :=
      { input.rainSummary with precipitation_sum_24h_mm := some v } }

/-- The entirely empty feature bundle: no rainfall, no seismic events, no
reservoir match, no elevation, no baseline. -/
def emptyRiskInput : RiskInput := {}

end

/-! ## Theorems -/

/-- C1 (counterexample): starting from empty history, three consecutive nowcast
runs appending the strictly increasing scores 40, 55, 70 under the default
thresholds (warning 60, rising checks 3) do NOT set `warning_triggered` on the
third run: the rising streak is only 2 comparisons. -/
theorem nowcast_40_55_70_no_warning_on_third_run :
    (nowcastStep defaultNowcastConfig
      (nowcastStep defaultNowcastConfig
        (nowcastStep defaultNowcastConfig [] 40 1).history 55 2).history 70 3).warning_triggered
      = false := by decide

/-- C1 (amended): with empty prior history and default thresholds
(warning 60, rising checks 3), the runs 40, 55, 70 leave `warning_triggered`
false on the third run (the rising streak is 2 < 3), and a fourth strictly
increasing run with score 85 sets `warning_triggered` on the fourth run. -/
theorem nowcast_warning_needs_three_rising_comparisons :
    ((nowcastStep defaultNowcastConfig
      (nowcastStep defaultNowcastConfig
        (nowcastStep defaultNowcastConfig [] 40 1).history 55 2).history 70 3).warning_triggered
      = false) ∧
    ((nowcastStep defaultNowcastConfig
      (nowcastStep defaultNowcastConfig
        (nowcastStep defaultNowcastConfig
          (nowcastStep defaultNowcastConfig [] 40 1).history 55 2).history 70 3).history
        85 4).warning_triggered = true) := by decide

/-- C2: under the default configuration (emergency threshold 75, rising checks 3),
a nowcast sample at or above the emergency threshold whose post-append rising
streak is below `rising_checks - 1` never sets `emergency_triggered`. -/
theorem emergency_gate_blocks_transient_spike (prior : List TrendPoint) (s : Int)
    (ts : Nat) (hs : defaultNowcastConfig.emergency_threshold ≤ s)
    (hr : consecutiveRising (updateHistory prior s ts) <
      defaultNowcastConfig.rising_checks - 1) :
    (nowcastStep defaultNowcastConfig prior s ts).emergency_triggered = false := by
  have h2 : ¬ (max 1 (defaultNowcastConfig.rising_checks - 1) ≤
      consecutiveRising (updateHistory prior s ts)) := by
    simp only [defaultNowcastConfig] at hr ⊢
    omega
  simp [nowcastStep, h2]

/-- Witness for C2: a single sample of 80 on empty history has rising streak 0
and does not trigger the emergency flag. -/
theorem emergency_gate_blocks_transient_spike_witness :
    defaultNowcastConfig.emergency_threshold ≤ (80 : Int) ∧
    consecutiveRising (updateHistory [] 80 0) <
      defaultNowcastConfig.rising_checks - 1 ∧
    (nowcastStep defaultNowcastConfig [] 80 0).emergency_triggered = false :=
  ⟨by decide, by decide,
    emergency_gate_blocks_transient_spike [] 80 0 (by decide) (by decide)⟩

/-- C6: appending a trend point never makes the stored history longer than the
window bound 8, and when the history is full the earliest (oldest) point is the
one evicted. -/
theorem updateHistory_bounded_fifo (h : List TrendPoint) (s : Int) (ts : Nat) :
    (updateHistory h s ts).length ≤ 8 ∧
    (h.length = 8 → updateHistory h s ts = h.drop 1 ++ [⟨s, ts⟩]) := by
  constructor
  · simp only [updateHistory, List.length_drop, List.length_append,
      List.length_singleton]
    omega
  · intro h8
    simp only [updateHistory, List.length_append, List.length_singleton, h8]
    rw [show (8 + 1 - 8 : Nat) = 1 from rfl,
      List.drop_append_of_le_length (by omega)]

/-- Witness for C6: a full 8-point history evicts its oldest point on append. -/
theorem updateHistory_bounded_fifo_witness :
    (updateHistory
      [⟨1, 1⟩, ⟨2, 2⟩, ⟨3, 3⟩, ⟨4, 4⟩, ⟨5, 5⟩, ⟨6, 6⟩, ⟨7, 7⟩, ⟨8, 8⟩] 99 9).length ≤ 8 ∧
    updateHistory
      [⟨1, 1⟩, ⟨2, 2⟩, ⟨3, 3⟩, ⟨4, 4⟩, ⟨5, 5⟩, ⟨6, 6⟩, ⟨7, 7⟩, ⟨8, 8⟩] 99 9 =
      [⟨2, 2⟩, ⟨3, 3⟩, ⟨4, 4⟩, ⟨5, 5⟩, ⟨6, 6⟩, ⟨7, 7⟩, ⟨8, 8⟩, ⟨99, 9⟩] :=
  ⟨(updateHistory_bounded_fifo _ 99 9).1,
    by
      rw [(updateHistory_bounded_fifo
        [⟨1, 1⟩, ⟨2, 2⟩, ⟨3, 3⟩, ⟨4, 4⟩, ⟨5, 5⟩, ⟨6, 6⟩, ⟨7, 7⟩, ⟨8, 8⟩] 99 9).2 rfl]
      rfl⟩

/-- The zone comparator is total. -/
theorem zoneLe_total (a b : RiskZone) : (zoneLe a b || zoneLe b a) = true := by
  unfold zoneLe
  by_cases ha : a.zone_severity = .HIGH <;> by_cases hb : b.zone_severity = .HIGH <;>
    simp [ha, hb] <;> omega

/-- The zone comparator is transitive. -/
theorem zoneLe_trans (a b c : RiskZone) (hab : zoneLe a b = true)
    (hbc : zoneLe b c = true) : zoneLe a c = true := by
  unfold zoneLe at *
  by_cases ha : a.zone_severity = .HIGH <;> by_cases hb : b.zone_severity = .HIGH <;>
    by_cases hc : c.zone_severity = .HIGH <;>
    simp [ha, hb, hc] at * <;> omega

/-- C7: every dam whose flood or landslide level is not LOW appears in
`high_risk_zones` (regardless of any regional average, which plays no role in
the construction), and the list is sorted by the severity-then-score
comparator (HIGH before MEDIUM, descending max score within a tier). -/
theorem highRiskZones_complete_and_sorted (damResults : List DamResult) :
    (∀ d ∈ damResults,
      (riskLevel d.flood_risk_score ≠ .LOW ∨ riskLevel d.landslide_risk_score ≠ .LOW) →
        mkRiskZone d ∈ highRiskZones damResults) ∧
    List.Pairwise (fun a b => zoneLe a b = true) (highRiskZones damResults) := by
  constructor
  · intro d hd hlev
    unfold highRiskZones
    rw [List.mem_mergeSort]
    exact List.mem_map_of_mem _ (List.mem_filter.mpr ⟨hd, by simpa using hlev⟩)
  · exact List.sorted_mergeSort zoneLe_trans zoneLe_total _

/-- Witness for C7: a dam with a MEDIUM flood level appears in the zone list. -/
theorem highRiskZones_complete_and_sorted_witness :
    mkRiskZone ⟨"DamA", "StateA", 50, 10⟩ ∈
      highRiskZones [⟨"DamA", "StateA", 50, 10⟩] :=
  (highRiskZones_complete_and_sorted [⟨"DamA", "StateA", 50, 10⟩]).1
    ⟨"DamA", "StateA", 50, 10⟩ (by decide) (by decide)

/-- The best score tracked by the candidate scan never decreases. -/
theorem matchStep_foldl_snd_mono (dam : Dam) :
    ∀ (l : List Reservoir) (acc : Option Reservoir × ℚ),
      acc.2 ≤ (l.foldl (matchStep dam) acc).2 := by
  intro l
  induction l with
  | nil => intro acc; simp
  | cons r t ih =>
    intro acc
    simp only [List.foldl_cons]
    refine le_trans ?_ (ih (matchStep dam acc r))
    unfold matchStep
    by_cases hlt : acc.2 < scoreReservoirMatch dam r
    · simp only [hlt, if_true]
      exact le_of_lt hlt
    · simp [hlt]

/-- Every scanned candidate's score is bounded by the final best score. -/
theorem matchStep_foldl_ge_all (dam : Dam) :
    ∀ (l : List Reservoir) (acc : Option Reservoir × ℚ) (r : Reservoir), r ∈ l →
      scoreReservoirMatch dam r ≤ (l.foldl (matchStep dam) acc).2 := by
  intro l
  induction l with
  | nil => intro acc r hr; simp at hr
  | cons x t ih =>
    intro acc r hr
    simp only [List.foldl_cons]
    rcases List.mem_cons.mp hr with h | h
    · subst h
      refine le_trans ?_ (matchStep_foldl_snd_mono dam t (matchStep dam acc r))
      unfold matchStep
      by_cases hlt : acc.2 < scoreReservoirMatch dam r
      · simp [hlt]
      · simp only [hlt, if_false]
        exact le_of_not_lt hlt
    · exact ih (matchStep dam acc x) r h

/-- When the scan ends on a candidate, the tracked best score is that
candidate's score. -/
theorem matchStep_foldl_fst_score (dam : Dam) :
    ∀ (l : List Reservoir) (acc : Option Reservoir × ℚ),
      (∀ b, acc.1 = some b → acc.2 = scoreReservoirMatch dam b) →
      ∀ b, (l.foldl (matchStep dam) acc).1 = some b →
        (l.foldl (matchStep dam) acc).2 = scoreReservoirMatch dam b := by
  intro l
  induction l with
  | nil => intro acc hacc b hb; exact hacc b hb
  | cons x t ih =>
    intro acc hacc b hb
    refine ih (matchStep dam acc x) ?_ b hb
    intro b' hb'
    unfold matchStep at hb' ⊢
    by_cases hlt : acc.2 < scoreReservoirMatch dam x
    · simp only [hlt, if_true] at hb' ⊢
      cases hb'
      rfl
    · simp only [hlt, if_false] at hb' ⊢
      exact hacc b' hb'

/-- C5: whenever `matchReservoirToDam` (default threshold 0.45) returns a
match, the returned candidate has the highest combined score among all
candidates, the annotation is that score rounded to two decimals, and the
score is at least 0.45 — a candidate scoring below the threshold is never
returned. -/
theorem matchReservoirToDam_best_above_threshold (dam : Dam)
    (reservoirLevels : List Reservoir) (b : Reservoir) (sc : ℚ)
    (hm : matchReservoirToDam dam reservoirLevels = some (b, sc)) :
    (45/100 : ℚ) ≤ scoreReservoirMatch dam b ∧
    sc = roundScore2 (scoreReservoirMatch dam b) ∧
    ∀ r ∈ reservoirLevels, scoreReservoirMatch dam r ≤ scoreReservoirMatch dam b := by
  unfold matchReservoirToDam at hm
  by_cases hemp : reservoirLevels.isEmpty
  · simp [hemp] at hm
  · simp only [hemp, if_false] at hm
    by_cases hth : (reservoirLevels.foldl (matchStep dam) (none, 0)).2 < 45/100
    · simp [hth] at hm
    · simp only [hth, if_false] at hm
      rcases hfst : (reservoirLevels.foldl (matchStep dam) (none, 0)).1 with _ | b'
      · rw [hfst] at hm
        simp at hm
      · rw [hfst] at hm
        have hm2 : some (b', roundScore2
            (reservoirLevels.foldl (matchStep dam) (none, 0)).2) = some (b, sc) := hm
        injection hm2 with hpair
        injection hpair with hbeq hsceq
        subst hbeq
        subst hsceq
        have hscore : (reservoirLevels.foldl (matchStep dam) (none, 0)).2 =
            scoreReservoirMatch dam b' :=
          matchStep_foldl_fst_score dam reservoirLevels (none, 0)
            (by intro b hb; simp at hb) b' hfst
        refine ⟨?_, ?_, ?_⟩
        · rw [← hscore]; exact le_of_not_lt hth
        · rw [hscore]
        · intro r hr
          rw [← hscore]
          exact matchStep_foldl_ge_all dam reservoirLevels (none, 0) r hr

/-- Witness for C5: matching the Tehri dam against a single record named
"TEHRI" in the same state returns it with a combined score of 1.2 >= 0.45. -/
theorem matchReservoirToDam_best_above_threshold_witness :
    (45/100 : ℚ) ≤
      scoreReservoirMatch ⟨"Tehri Dam", "Uttarakhand", 0, 0⟩
        ⟨"TEHRI", "Uttarakhand", none, none, none⟩ ∧
    (6/5 : ℚ) = roundScore2 (scoreReservoirMatch ⟨"Tehri Dam", "Uttarakhand", 0, 0⟩
        ⟨"TEHRI", "Uttarakhand", none, none, none⟩) :=
  ⟨(matchReservoirToDam_best_above_threshold ⟨"Tehri Dam", "Uttarakhand", 0, 0⟩
      [⟨"TEHRI", "Uttarakhand", none, none, none⟩]
      ⟨"TEHRI", "Uttarakhand", none, none, none⟩ (6/5)
      (by with_unfolding_all rfl)).1,
    (matchReservoirToDam_best_above_threshold ⟨"Tehri Dam", "Uttarakhand", 0, 0⟩
      [⟨"TEHRI", "Uttarakhand", none, none, none⟩]
      ⟨"TEHRI", "Uttarakhand", none, none, none⟩ (6/5)
      (by with_unfolding_all rfl)).2.1⟩

/-- The clamp lower bound. -/
theorem le_clamp (x lo hi : ℝ) : lo ≤ clamp x lo hi := le_max_left _ _

/-- The clamp upper bound. -/
theorem clamp_le (x : ℝ) {lo hi : ℝ} (h : lo ≤ hi) : clamp x lo hi ≤ hi :=
  max_le h (min_le_left _ _)

/-- Clamping is monotone in its argument. -/
theorem clamp_mono {x y : ℝ} (lo hi : ℝ) (h : x ≤ y) :
    clamp x lo hi ≤ clamp y lo hi :=
  max_le_max le_rfl (min_le_min le_rfl h)

/-- JS rounding of a value in [0, 100] lands in [0, 100]. -/
theorem jsRound_mem {x : ℝ} (h0 : 0 ≤ x) (h1 : x ≤ 100) :
    0 ≤ jsRound x ∧ jsRound x ≤ 100 := by
  unfold jsRound
  constructor
  · rw [Int.le_floor]
    push_cast
    linarith
  · rw [Int.floor_le_iff]
    push_cast
    linarith

/-- JS rounding of a [0,100]-clamped value lands in [0, 100]. -/
theorem jsRound_clamp01_mem (x : ℝ) :
    0 ≤ jsRound (clamp x 0 100) ∧ jsRound (clamp x 0 100) ≤ 100 :=
  jsRound_mem (le_clamp x 0 100) (clamp_le x (by norm_num))

/-- JS rounding is monotone. -/
theorem jsRound_mono {x y : ℝ} (h : x ≤ y) : jsRound x ≤ jsRound y :=
  Int.floor_mono (by linarith)

/-- The reservoir stress index is always within [0, 100]. -/
theorem reservoirStressIndex_mem (ctx : Option ReservoirContext) :
    0 ≤ reservoirStressIndex ctx ∧ reservoirStressIndex ctx ≤ 100 := by
  have hcl : ∀ x : ℝ, 0 ≤ clamp x 0 100 ∧ clamp x 0 100 ≤ 100 :=
    fun x => ⟨le_clamp x 0 100, clamp_le x (by norm_num)⟩
  unfold reservoirStressIndex
  rcases hA : normalizeReservoirLevel (ctx.bind fun c => c.level_pct) with _ | l <;>
    rcases hB : ctx.bind (fun c => c.inflow) with _ | inflow <;>
    rcases hC : ctx.bind (fun c => c.outflow) with _ | outflow <;>
    simp only [hA, hB, hC, Option.map_none', Option.map_some']
  · norm_num
  · norm_num
  · norm_num
  · split_ifs with ho
    · exact jsRound_mem (hcl _).1 (hcl _).2
    · norm_num
  · exact jsRound_mem (hcl _).1 (hcl _).2
  · exact jsRound_mem (hcl _).1 (hcl _).2
  · exact jsRound_mem (hcl _).1 (hcl _).2
  · split_ifs with ho
    · refine jsRound_mem ?_ ?_
      · nlinarith [(hcl ((l - 60) * (5/2))).1,
          (hcl ((inflow / (outflow + 1/1000000) - 1) * 45 + 50)).1]
      · nlinarith [(hcl ((l - 60) * (5/2))).2,
          (hcl ((inflow / (outflow + 1/1000000) - 1) * 45 + 50)).2]
    · exact jsRound_mem (hcl _).1 (hcl _).2

/-- The terrain sub-index is always within [0, 100]. -/
theorem terrainv_mem (input : RiskInput) :
    0 ≤ terrainv input ∧ terrainv input ≤ 100 := by
  unfold terrainv
  split
  · norm_num
  · exact ⟨le_clamp _ 0 100, clamp_le _ (by norm_num)⟩

/-- The lowland factor is always within [0, 100]. -/
theorem lowlandFactorv_mem (input : RiskInput) :
    0 ≤ lowlandFactorv input ∧ lowlandFactorv input ≤ 100 := by
  unfold lowlandFactorv
  split
  · norm_num
  · split_ifs <;> norm_num

/-- The prone-state boost is always within [0, 100]. -/
theorem proneStateBoostv_mem (input : RiskInput) :
    0 ≤ proneStateBoostv input ∧ proneStateBoostv input ≤ 100 := by
  unfold proneStateBoostv
  split_ifs <;> norm_num

/-- C3: for every feature bundle, the returned scores and confidence are
integers in [0, 100], and every component sub-index (flood: intensity,
persistence, saturation, reservoir stress, anomaly, seismic, lowland factor;
landslide: intensity, duration, terrain, seismic, anomaly, spill stress,
prone-state boost) is in [0, 100]. -/
theorem calculateAdvancedRisk_all_bounded (input : RiskInput) :
    inScoreRange (calculateAdvancedRisk input).flood_score ∧
    inScoreRange (calculateAdvancedRisk input).landslide_score ∧
    inScoreRange (calculateAdvancedRisk input).confidence ∧
    inScoreRange (calculateAdvancedRisk input).components.flood.intensity ∧
    inScoreRange (calculateAdvancedRisk input).components.flood.persistence ∧
    inScoreRange (calculateAdvancedRisk input).components.flood.saturation ∧
    inScoreRange (calculateAdvancedRisk input).components.flood.reservoir_stress ∧
    inScoreRange (calculateAdvancedRisk input).components.flood.anomaly ∧
    inScoreRange (calculateAdvancedRisk input).components.flood.seismic ∧
    inScoreRange (calculateAdvancedRisk input).components.flood.lowland_factor ∧
    inScoreRange (calculateAdvancedRisk input).components.landslide.intensity ∧
    inScoreRange (calculateAdvancedRisk input).components.landslide.duration ∧
    inScoreRange (calculateAdvancedRisk input).components.landslide.terrain ∧
    inScoreRange (calculateAdvancedRisk input).components.landslide.seismic ∧
    inScoreRange (calculateAdvancedRisk input).components.landslide.anomaly ∧
    inScoreRange (calculateAdvancedRisk input).components.landslide.reservoir_spill_stress ∧
    inScoreRange (calculateAdvancedRisk input).components.landslide.prone_state_boost :=
  ⟨jsRound_clamp01_mem _, jsRound_clamp01_mem _, jsRound_clamp01_mem _,
    jsRound_clamp01_mem _, jsRound_clamp01_mem _, jsRound_clamp01_mem _,
    reservoirStressIndex_mem _,
    jsRound_clamp01_mem _, jsRound_clamp01_mem _,
    jsRound_mem (lowlandFactorv_mem input).1 (lowlandFactorv_mem input).2,
    jsRound_clamp01_mem _, jsRound_clamp01_mem _,
    jsRound_mem (terrainv_mem input).1 (terrainv_mem input).2,
    jsRound_clamp01_mem _, jsRound_clamp01_mem _, jsRound_clamp01_mem _,
    jsRound_mem (proneStateBoostv_mem input).1 (proneStateBoostv_mem input).2⟩

/-- The logistic squashing is monotone for nonnegative steepness. -/
theorem sigmoidTo100_mono {center steepness : ℝ} (hs : 0 ≤ steepness) {x y : ℝ}
    (h : x ≤ y) :
    sigmoidTo100 x center steepness ≤ sigmoidTo100 y center steepness := by
  unfold sigmoidTo100
  have hmul := mul_le_mul_of_nonneg_left (sub_le_sub_right h center) hs
  have hexp : Real.exp (-(steepness * (y - center))) ≤
      Real.exp (-(steepness * (x - center))) := Real.exp_le_exp.mpr (by linarith)
  have hposy : (0:ℝ) < 1 + Real.exp (-(steepness * (y - center))) := by positivity
  exact div_le_div_of_nonneg_left (by norm_num) hposy (by linarith)

/-- The 24-hour rainfall of a bundle whose 24-hour sum was replaced. -/
theorem r24v_setRain24 (input : RiskInput) (v : ℝ) :
    r24v (setRain24 input v) = v := rfl

/-- The resolved 72-hour rainfall of a bundle whose 24-hour sum was replaced. -/
theorem r72v_setRain24 (input : RiskInput) (v : ℝ) :
    r72v (setRain24 input v) =
      (input.rain72h <|> input.rainSummary.precipitation_sum_72h_mm).getD v := rfl

/-- The resolved 7-day rainfall of a bundle whose 24-hour sum was replaced. -/
theorem r7v_setRain24 (input : RiskInput) (v : ℝ) :
    r7v (setRain24 input v) =
      (input.rain7d <|> input.rainSummary.precipitation_sum_7d_mm).getD
        (r72v (setRain24 input v)) := rfl

/-- The resolved 72-hour rainfall is monotone in the 24-hour replacement. -/
theorem r72v_setRain24_mono (input : RiskInput) {a b : ℝ} (h : a ≤ b) :
    r72v (setRain24 input a) ≤ r72v (setRain24 input b) := by
  rw [r72v_setRain24, r72v_setRain24]
  cases input.rain72h <|> input.rainSummary.precipitation_sum_72h_mm with
  | none => simpa using h
  | some x => simp

/-- The resolved 7-day rainfall is monotone in the 24-hour replacement. -/
theorem r7v_setRain24_mono (input : RiskInput) {a b : ℝ} (h : a ≤ b) :
    r7v (setRain24 input a) ≤ r7v (setRain24 input b) := by
  rw [r7v_setRain24, r7v_setRain24]
  cases input.rain7d <|> input.rainSummary.precipitation_sum_7d_mm with
  | none => simpa using r72v_setRain24_mono input h
  | some x => simp

/-- The anomaly sub-index is monotone in the 24-hour replacement. -/
theorem anomalyv_setRain24_mono (input : RiskInput) {a b : ℝ} (h : a ≤ b) :
    anomalyv (setRain24 input a) ≤ anomalyv (setRain24 input b) := by
  unfold anomalyv anomalyRatiov
  have ea : (setRain24 input a).baselineAvgDaily = input.baselineAvgDaily := rfl
  have eb : (setRain24 input b).baselineAvgDaily = input.baselineAvgDaily := rfl
  rw [ea, eb, r24v_setRain24, r24v_setRain24]
  cases input.baselineAvgDaily with
  | none => simp
  | some bl =>
    by_cases hbl : 0 < bl
    · simp only [hbl, if_true]
      have h24 : a / 24 ≤ b / 24 := (div_le_div_iff_of_pos_right (by norm_num)).mpr h
      have hq : a / 24 / bl ≤ b / 24 / bl := (div_le_div_iff_of_pos_right hbl).mpr h24
      exact clamp_mono 0 100 (by linarith)
    · simp [hbl]

/-- Flood rain intensity is monotone in the 24-hour replacement. -/
theorem intensityFloodv_setRain24_mono (input : RiskInput) {a b : ℝ} (h : a ≤ b) :
    intensityFloodv (setRain24 input a) ≤ intensityFloodv (setRain24 input b) := by
  unfold intensityFloodv
  rw [r24v_setRain24, r24v_setRain24,
    show peakv (setRain24 input a) = peakv (setRain24 input b) from rfl]
  refine clamp_mono 0 100 ?_
  have hd : a / (5/4) ≤ b / (5/4) := (div_le_div_iff_of_pos_right (by norm_num)).mpr h
  linarith

/-- Landslide rain intensity is monotone in the 24-hour replacement. -/
theorem intensityLandv_setRain24_mono (input : RiskInput) {a b : ℝ} (h : a ≤ b) :
    intensityLandv (setRain24 input a) ≤ intensityLandv (setRain24 input b) := by
  unfold intensityLandv
  rw [r24v_setRain24, r24v_setRain24,
    show peakv (setRain24 input a) = peakv (setRain24 input b) from rfl]
  refine clamp_mono 0 100 ?_
  have hd : a / (115/100) ≤ b / (115/100) :=
    (div_le_div_iff_of_pos_right (by norm_num)).mpr h
  linarith

/-- The flood score is monotone in the 24-hour replacement. -/
theorem floodScorev_setRain24_mono (input : RiskInput) {a b : ℝ} (h : a ≤ b) :
    floodScorev (setRain24 input a) ≤ floodScorev (setRain24 input b) := by
  have h1 := intensityFloodv_setRain24_mono input h
  have h2 : persistencev (setRain24 input a) ≤ persistencev (setRain24 input b) := by
    unfold persistencev
    exact clamp_mono 0 100
      ((div_le_div_iff_of_pos_right (by norm_num)).mpr (r72v_setRain24_mono input h))
  have h3 : saturationv (setRain24 input a) ≤ saturationv (setRain24 input b) := by
    unfold saturationv
    exact clamp_mono 0 100
      ((div_le_div_iff_of_pos_right (by norm_num)).mpr (r7v_setRain24_mono input h))
  have h5 := anomalyv_setRain24_mono input h
  have hlin : floodLinearv (setRain24 input a) ≤ floodLinearv (setRain24 input b) := by
    unfold floodLinearv
    rw [show reservoirStressv (setRain24 input a) =
          reservoirStressv (setRain24 input b) from rfl,
      show seismicv (setRain24 input a) = seismicv (setRain24 input b) from rfl,
      show lowlandFactorv (setRain24 input a) =
          lowlandFactorv (setRain24 input b) from rfl]
    linarith
  unfold floodScorev
  exact jsRound_mono (clamp_mono 0 100 (sigmoidTo100_mono (by norm_num) hlin))

/-- The landslide score is monotone in the 24-hour replacement. -/
theorem landslideScorev_setRain24_mono (input : RiskInput) {a b : ℝ} (h : a ≤ b) :
    landslideScorev (setRain24 input a) ≤ landslideScorev (setRain24 input b) := by
  have h1 := intensityLandv_setRain24_mono input h
  have h2 : durationLandv (setRain24 input a) ≤ durationLandv (setRain24 input b) := by
    unfold durationLandv
    exact clamp_mono 0 100
      ((div_le_div_iff_of_pos_right (by norm_num)).mpr (r72v_setRain24_mono input h))
  have h5 := anomalyv_setRain24_mono input h
  have hlin : landslideLinearv (setRain24 input a) ≤
      landslideLinearv (setRain24 input b) := by
    unfold landslideLinearv
    rw [show terrainv (setRain24 input a) = terrainv (setRain24 input b) from rfl,
      show seismicLandv (setRain24 input a) =
          seismicLandv (setRain24 input b) from rfl,
      show spillSlopeStressv (setRain24 input a) =
          spillSlopeStressv (setRain24 input b) from rfl,
      show proneStateBoostv (setRain24 input a) =
          proneStateBoostv (setRain24 input b) from rfl]
    linarith
  unfold landslideScorev
  exact jsRound_mono (clamp_mono 0 100 (sigmoidTo100_mono (by norm_num) hlin))

/-- C4: holding every other input fixed, increasing the 24-hour rainfall sum
never decreases the returned flood score or landslide score. -/
theorem risk_scores_monotone_in_rain24 (input : RiskInput) (a b : ℝ) (hab : a ≤ b) :
    (calculateAdvancedRisk (setRain24 input a)).flood_score ≤
      (calculateAdvancedRisk (setRain24 input b)).flood_score ∧
    (calculateAdvancedRisk (setRain24 input a)).landslide_score ≤
      (calculateAdvancedRisk (setRain24 input b)).landslide_score :=
  ⟨floodScorev_setRain24_mono input hab, landslideScorev_setRain24_mono input hab⟩

/-- Witness for C4: raising the 24-hour rainfall of the empty bundle from 0 mm
to 1 mm does not decrease either score. -/
theorem risk_scores_monotone_in_rain24_witness :
    (calculateAdvancedRisk (setRain24 {} 0)).flood_score ≤
      (calculateAdvancedRisk (setRain24 {} 1)).flood_score ∧
    (calculateAdvancedRisk (setRain24 {} 0)).landslide_score ≤
      (calculateAdvancedRisk (setRain24 {} 1)).landslide_score :=
  risk_scores_monotone_in_rain24 {} 0 1 zero_le_one

/-- JS rounding of the real number 50 is 50. -/
theorem jsRound_fifty : jsRound (50:ℝ) = 50 := by
  unfold jsRound
  rw [Int.floor_eq_iff] <;> norm_num

/-- Without a baseline the anomaly ratio is 1, so the anomaly sub-index is
exactly the neutral 50 in both component blocks. -/
theorem anomaly_neutral_of_no_baseline (input : RiskInput)
    (hb : input.baselineAvgDaily = none) :
    (calculateAdvancedRisk input).components.flood.anomaly = 50 ∧
    (calculateAdvancedRisk input).components.landslide.anomaly = 50 := by
  have hr : anomalyRatiov input = 1 := by
    unfold anomalyRatiov
    rw [hb]
  have ha : anomalyv input = 50 := by
    unfold anomalyv
    rw [hr]
    unfold clamp
    norm_num [min_def, max_def]
  refine ⟨?_, ?_⟩ <;>
    · show jsRound (anomalyv input) = 50
      rw [ha]
      exact jsRound_fifty

/-- C10: every per-location assessment produced inside `runRiskCheck` passes
`baselineAvgDaily: null` to the risk formula, so its anomaly sub-index is the
neutral 50 in both component blocks — the historical climate baseline never
influences this path. -/
theorem riskCheck_anomaly_always_neutral (dam : Option Dam)
    (earthquakes : List SeismicEvent) (reservoirLevels : List Reservoir)
    (summary : RainSummary) (elevation : Option ℝ) :
    (riskCheckLocationAssessment dam earthquakes reservoirLevels summary
      elevation).components.flood.anomaly = 50 ∧
    (riskCheckLocationAssessment dam earthquakes reservoirLevels summary
      elevation).components.landslide.anomaly = 50 :=
  anomaly_neutral_of_no_baseline _ rfl

/-- C8: on a whole-batch upstream fetch failure, `runRiskCheck` returns the
degraded but structurally valid assessment: scores 0, overall level LOW, the
error-carrying message, and a retry recommendation — no exception. -/
theorem runRiskCheck_degrades_on_fetch_failure (locations : List Dam) (e : String) :
    runRiskCheck locations (.error e) =
      { success := false
        error := some e
        flood_risk_score := 0
        landslide_risk_score := 0
        flood_risk_level := none
        landslide_risk_level := none
        overall_alert_level := .LOW
        alert_message := "Data fetch failed. Retry later."
        recommendations := ["Retry run check or check API connectivity."]
        model_confidence := none } := rfl

/-- The empty bundle's flood linear combination is exactly 5
(only the neutral anomaly of 50 contributes, with weight 0.10). -/
theorem floodLinearv_empty : floodLinearv emptyRiskInput = 5 := by
  unfold floodLinearv
  rw [show intensityFloodv emptyRiskInput = 0 from by
      unfold intensityFloodv
      rw [show r24v emptyRiskInput = (0:ℝ) from rfl,
        show peakv emptyRiskInput = (0:ℝ) from rfl]
      unfold clamp
      norm_num [min_def, max_def],
    show persistencev emptyRiskInput = 0 from by
      unfold persistencev
      rw [show r72v emptyRiskInput = (0:ℝ) from rfl]
      unfold clamp
      norm_num [min_def, max_def],
    show saturationv emptyRiskInput = 0 from by
      unfold saturationv
      rw [show r7v emptyRiskInput = (0:ℝ) from rfl]
      unfold clamp
      norm_num [min_def, max_def],
    show seismicv emptyRiskInput = 0 from by
      unfold seismicv
      rw [show emptyRiskInput.earthquakesNearby = (0:ℝ) from rfl]
      unfold clamp
      norm_num [min_def, max_def],
    show anomalyv emptyRiskInput = 50 from by
      unfold anomalyv
      rw [show anomalyRatiov emptyRiskInput = 1 from rfl]
      unfold clamp
      norm_num [min_def, max_def],
    show reservoirStressv emptyRiskInput = 0 from rfl,
    show lowlandFactorv emptyRiskInput = 0 from rfl]
  push_cast
  ring

/-- The empty bundle's landslide linear combination is exactly 13
(neutral terrain 50 with weight 0.16 plus neutral anomaly 50 with weight 0.10). -/
theorem landslideLinearv_empty : landslideLinearv emptyRiskInput = 13 := by
  unfold landslideLinearv
  rw [show intensityLandv emptyRiskInput = 0 from by
      unfold intensityLandv
      rw [show r24v emptyRiskInput = (0:ℝ) from rfl,
        show peakv emptyRiskInput = (0:ℝ) from rfl]
      unfold clamp
      norm_num [min_def, max_def],
    show durationLandv emptyRiskInput = 0 from by
      unfold durationLandv
      rw [show r72v emptyRiskInput = (0:ℝ) from rfl]
      unfold clamp
      norm_num [min_def, max_def],
    show seismicLandv emptyRiskInput = 0 from by
      unfold seismicLandv
      rw [show emptyRiskInput.earthquakesNearby = (0:ℝ) from rfl]
      unfold clamp
      norm_num [min_def, max_def],
    show anomalyv emptyRiskInput = 50 from by
      unfold anomalyv
      rw [show anomalyRatiov emptyRiskInput = 1 from rfl]
      unfold clamp
      norm_num [min_def, max_def],
    show terrainv emptyRiskInput = 50 from rfl,
    show spillSlopeStressv emptyRiskInput = 0 from by
      unfold spillSlopeStressv
      rw [show reservoirStressv emptyRiskInput = 0 from rfl]
      unfold clamp
      norm_num [min_def, max_def],
    show proneStateBoostv emptyRiskInput = 0 from by with_unfolding_all rfl]
  push_cast
  ring

/-- The empty bundle has 2 of 8 features available (the two `>= 0` checks). -/
theorem featuresAvailableCount_empty : featuresAvailableCount emptyRiskInput = 2 := by
  unfold featuresAvailableCount
  rw [show r24v emptyRiskInput = (0:ℝ) from rfl,
    show r72v emptyRiskInput = (0:ℝ) from rfl,
    show r7v emptyRiskInput = (0:ℝ) from rfl,
    show peakv emptyRiskInput = (0:ℝ) from rfl,
    show emptyRiskInput.earthquakesNearby = (0:ℝ) from rfl,
    show emptyRiskInput.elevation = none from rfl,
    show emptyRiskInput.baselineAvgDaily = none from rfl,
    show normalizeReservoirLevel (emptyRiskInput.reservoirContext.bind
      (fun c => c.level_pct)) = none from rfl]
  norm_num

/-- C9: for the entirely empty feature bundle the formula returns without
failing: both scores are at their formula floor (at most 20 and nonnegative)
and the confidence is exactly its base completeness floor of 64. -/
theorem empty_bundle_scores_at_floor :
    0 ≤ (calculateAdvancedRisk emptyRiskInput).flood_score ∧
    (calculateAdvancedRisk emptyRiskInput).flood_score ≤ 20 ∧
    0 ≤ (calculateAdvancedRisk emptyRiskInput).landslide_score ∧
    (calculateAdvancedRisk emptyRiskInput).landslide_score ≤ 20 ∧
    (calculateAdvancedRisk emptyRiskInput).confidence = 64 := by
  refine ⟨(jsRound_clamp01_mem _).1, ?_, (jsRound_clamp01_mem _).1, ?_, ?_⟩
  · show floodScorev emptyRiskInput ≤ 20
    unfold floodScorev
    rw [floodLinearv_empty]
    have hz : -((9:ℝ)/100 * (5 - 50)) = 81/20 := by norm_num
    have hE := Real.add_one_le_exp ((81:ℝ)/20)
    have hpos : (0:ℝ) < 1 + Real.exp (81/20) := by positivity
    have hS : sigmoidTo100 5 50 (9/100) ≤ 20 := by
      unfold sigmoidTo100
      rw [hz, div_le_iff₀ hpos]
      linarith
    have hclamp : clamp (sigmoidTo100 5 50 (9/100)) 0 100 ≤ 20 :=
      max_le (by norm_num) ((min_le_right _ _).trans hS)
    unfold jsRound
    rw [Int.floor_le_iff]
    push_cast
    linarith
  · show landslideScorev emptyRiskInput ≤ 20
    unfold landslideScorev
    rw [landslideLinearv_empty]
    have hz : -((85:ℝ)/1000 * (13 - 48)) = 119/40 := by norm_num
    have hE := Real.add_one_le_exp ((119:ℝ)/40)
    have hpos : (0:ℝ) < 1 + Real.exp (119/40) := by positivity
    have hS : sigmoidTo100 13 48 (85/1000) ≤ 4000/199 := by
      unfold sigmoidTo100
      rw [hz, div_le_iff₀ hpos]
      linarith
    have hclamp : clamp (sigmoidTo100 13 48 (85/1000)) 0 100 ≤ 4000/199 :=
      max_le (by norm_num) ((min_le_right _ _).trans hS)
    unfold jsRound
    rw [Int.floor_le_iff]
    push_cast
    linarith
  · show confidencev emptyRiskInput = 64
    unfold confidencev completenessv sourceDiversityv
    rw [featuresAvailableCount_empty,
      show emptyRiskInput.baselineAvgDaily = none from rfl,
      show normalizeReservoirLevel (emptyRiskInput.reservoirContext.bind
        (fun c => c.level_pct)) = none from rfl]
    have h64 : (45:ℝ) + (2:ℕ) / 8 * 40 +
        ((3 + (if (none : Option ℝ).isSome then 1 else 0) +
          (if (none : Option ℝ).isSome then 1 else 0) : ℕ) : ℝ) * 3 = 64 := by
      norm_num
    rw [show clamp ((45:ℝ) + ((2:ℕ):ℝ) / 8 * 40 +
        ((3 + (if (none : Option ℝ).isSome then 1 else 0) +
          (if (none : Option ℝ).isSome then 1 else 0) : ℕ) : ℝ) * 3) 0 100 = 64 from by
      unfold clamp
      norm_num [min_def, max_def]]
    unfold jsRound
    rw [Int.floor_eq_iff] <;> norm_num

end DisasterRisk
